import Mathlib

/-!
Shallow embedding of the password provisioning tasks in `tasks.py`
(the `generate_password` invoke task and its inner `_generate_password`
helper).  Characters are modelled as their ASCII codes (`Nat`), the
secure random source (`secrets.choice`) as an explicit stream of draws
`Nat → Nat` interpreted as indices into the alphabet, and the unbounded
`while True` loop by fuel: `none` means the loop has not returned within
the given fuel.
-/

/-- ASCII codes of `string.ascii_lowercase` = "abcdefghijklmnopqrstuvwxyz". -/
def ascii_lowercase : List Nat := (List.range 26).map (fun i => 97 + i)

/-- ASCII codes of `string.ascii_uppercase` = "ABCDEFGHIJKLMNOPQRSTUVWXYZ". -/
def ascii_uppercase : List Nat := (List.range 26).map (fun i => 65 + i)

/-- ASCII codes of `string.digits` = "0123456789". -/
def string_digits : List Nat := (List.range 10).map (fun i => 48 + i)

/-- ASCII codes of `string.punctuation`: the 32 non-alphanumeric printable
ASCII characters, codes 33-47, 58-64, 91-96 and 123-126. -/
def string_punctuation : List Nat :=
  (List.range 15).map (fun i => 33 + i) ++
  (List.range 7).map (fun i => 58 + i) ++
  (List.range 6).map (fun i => 91 + i) ++
  (List.range 4).map (fun i => 123 + i)

/-- `alphabet = string.ascii_letters + string.digits + string.punctuation`
where `ascii_letters = ascii_lowercase + ascii_uppercase`. -/
def alphabet : List Nat :=
  (ascii_lowercase ++ ascii_uppercase) ++ string_digits ++ string_punctuation

/-- Python `c.islower()` on a character of the ASCII alphabet. -/
def isLower (c : Nat) : Bool := 97 ≤ c && c ≤ 122

/-- Python `c.isupper()` on a character of the ASCII alphabet. -/
def isUpper (c : Nat) : Bool := 65 ≤ c && c ≤ 90

/-- Python `c.isdigit()` on a character of the ASCII alphabet. -/
def isDigit (c : Nat) : Bool := 48 ≤ c && c ≤ 57

/-- Python `c in string.punctuation`. -/
def isPunct (c : Nat) : Bool := decide (c ∈ string_punctuation)

/-- The acceptance test of the generation loop: at least one character of
each of the four classes, exactly the four `any(...)` conjuncts. -/
def acceptable (pw : List Nat) : Bool :=
  pw.any isLower && pw.any isUpper && pw.any isDigit && pw.any isPunct

/-- `secrets.choice(alphabet)` given one draw `d` of the random source:
the draw selects an index into the alphabet. -/
def choice (d : Nat) : Nat := alphabet.getD (d % alphabet.length) 0

/-- Drop the first `n` draws of a stream. -/
def shift (n : Nat) (s : Nat → Nat) : Nat → Nat := fun i => s (i + n)

/-- One candidate: `"".join(secrets.choice(alphabet) for _ in range(length))`. -/
def candidate (len : Nat) (s : Nat → Nat) : List Nat :=
  (List.range len).map (fun i => choice (s i))

/-- The inner `_generate_password(length)` of `tasks.py`: repeatedly draw a
whole fresh candidate and return it iff `acceptable`; the `while True` loop
is given fuel, `none` meaning it has not returned.  On success the
remaining stream is returned alongside the password. -/
def _generate_password : Nat → (Nat → Nat) → Nat → Option (List Nat × (Nat → Nat))
  | 0, _, _ => none
  | fuel + 1, s, len =>
    let pw := candidate len s
    if acceptable pw then some (pw, shift len s)
    else _generate_password fuel (shift len s) len

example : choice 0 = 97 := by decide
example : choice 26 = 65 := by decide
example : choice 52 = 48 := by decide
example : choice 62 = 33 := by decide
example : alphabet.length = 94 := by decide

/-- A concrete draw stream whose every candidate of length 4 is
`aA0!` (codes 97, 65, 48, 33), accepted at once. -/
def testStream : Nat → Nat := fun i => [0, 26, 52, 62].getD (i % 4) 0

example : candidate 4 testStream = [97, 65, 48, 33] := by decide
example : acceptable [97, 65, 48, 33] = true := by decide
example : _generate_password 1 testStream 4 = some ([97, 65, 48, 33], shift 4 testStream) := rfl

/-!
Filesystem model.  Paths are lists of components; file contents are lists
of bytes (ASCII codes).  `broken` marks paths on which any operation
raises an `OSError` (permission denied, disk full, ...), so that error
propagation can be observed.
-/

/-- Errors a filesystem operation can raise. -/
inductive FsErr where
  | fileNotFound (p : List String)
  | ioError (p : List String)
deriving DecidableEq, Repr

/-- State of the filesystem: existing directories, files with their byte
contents, and paths on which operations fail. -/
structure FS where
  dirs : List (List String)
  files : List (List String × List Nat)
  broken : List (List String)
deriving DecidableEq, Repr

/-- Parent of a path. -/
def parent (p : List String) : List String := p.dropLast

/-- Look a file up by its path. -/
def getFile (p : List String) : List (List String × List Nat) → Option (List Nat)
  | [] => none
  | (q, c) :: rest => if q = p then some c else getFile p rest

/-- Write a file: replace the contents wholesale if the path exists,
append a new entry otherwise. -/
def setFile (p : List String) (c : List Nat) :
    List (List String × List Nat) → List (List String × List Nat)
  | [] => [(p, c)]
  | (q, d) :: rest => if q = p then (p, c) :: rest else (q, d) :: setFile p c rest

/-- `Path.mkdir(exist_ok=True)` (note: no `parents=True` in the source):
succeeds when the directory already exists, creates it when its parent
exists, and raises `FileNotFoundError` when the parent is missing. -/
def mkdirOp (p : List String) (fs : FS) : Except FsErr FS :=
  if p ∈ fs.broken then Except.error (FsErr.ioError p)
  else if p ∈ fs.dirs then Except.ok fs
  else if parent p ∈ fs.dirs then Except.ok { fs with dirs := p :: fs.dirs }
  else Except.error (FsErr.fileNotFound p)

/-- `open(path, "w")` followed by `f.write(content)`: truncates any
existing file at the path and writes the content. -/
def writeFile (p : List String) (c : List Nat) (fs : FS) : Except FsErr FS :=
  if p ∈ fs.broken then Except.error (FsErr.ioError p)
  else if parent p ∈ fs.dirs then Except.ok { fs with files := setFile p c fs.files }
  else Except.error (FsErr.fileNotFound p)

/-- Bytes of a string literal. -/
def bytes (s : String) : List Nat := s.data.map Char.toNat

/-- Content written to `odoo.env`: `f"ADMIN_PASSWORD={admin_password}\n"`. -/
def adminLine (pw : List Nat) : List Nat := bytes "ADMIN_PASSWORD=" ++ pw ++ [10]

/-- Content written to `db-creation.env`: `f"POSTGRES_PASSWORD={postgres_password}\n"`. -/
def creationLine (pw : List Nat) : List Nat := bytes "POSTGRES_PASSWORD=" ++ pw ++ [10]

/-- Content written to `db-access.env`: `f"PGPASSWORD={postgres_password}\n"`. -/
def accessLine (pw : List Nat) : List Nat := bytes "PGPASSWORD=" ++ pw ++ [10]

/-- Path of `odoo.env` inside the output directory. -/
def odooPath (outDir : List String) : List String := outDir ++ ["odoo.env"]

/-- Path of `db-creation.env` inside the output directory. -/
def creationPath (outDir : List String) : List String := outDir ++ ["db-creation.env"]

/-- Path of `db-access.env` inside the output directory. -/
def accessPath (outDir : List String) : List String := outDir ++ ["db-access.env"]

/-- First log line: `_logger.info("Passwords and env files generated in .docker/")`. -/
def logDone : String := "Passwords and env files generated in .docker/"

/-- Second log line: `_logger.info(f"Generated passwords with length: {length}")`. -/
def logLen (len : Nat) : String := "Generated passwords with length: " ++ toString len

/-- The `generate_password` invoke task of `tasks.py` ("provision"): make
the output directory, generate the admin and the database password with
two successive calls to `_generate_password` on the draw stream, then
write `odoo.env`, `db-creation.env` and `db-access.env` in that order.
The output directory is the explicit parameter `outDir` (the source's
module-level `PROJECT_ROOT / ".docker"`).  The result is `none` when a
generation loop does not return within the fuel; otherwise it is the
outcome of the run (`ok` or the first filesystem error, which the source
does not catch), the filesystem state reached, and the log lines emitted. -/
def generate_password (fuel : Nat) (s : Nat → Nat) (len : Nat) (outDir : List String)
    (fs : FS) : Option (Except FsErr Unit × FS × List String) :=
  match mkdirOp outDir fs with
  | Except.error e => some (Except.error e, fs, [])
  | Except.ok fs1 =>
    match _generate_password fuel s len with
    | none => none
    | some (admin_password, s1) =>
      match _generate_password fuel s1 len with
      | none => none
      | some (postgres_password, _) =>
        match writeFile (odooPath outDir) (adminLine admin_password) fs1 with
        | Except.error e => some (Except.error e, fs1, [])
        | Except.ok fs2 =>
          match writeFile (creationPath outDir) (creationLine postgres_password) fs2 with
          | Except.error e => some (Except.error e, fs2, [])
          | Except.ok fs3 =>
            match writeFile (accessPath outDir) (accessLine postgres_password) fs3 with
            | Except.error e => some (Except.error e, fs3, [])
            | Except.ok fs4 =>
              some (Except.ok (), fs4, [logDone, logLen len])

example : bytes "ADMIN_PASSWORD=" =
    [65, 68, 77, 73, 78, 95, 80, 65, 83, 83, 87, 79, 82, 68, 61] := by decide

/-- A concrete filesystem with just the root directory. -/
def fs0 : FS := { dirs := [[]], files := [], broken := [] }

/-!
Helper lemmas about the filesystem model.
-/

theorem getFile_setFile_self (p : List String) (c : List Nat)
    (fl : List (List String × List Nat)) : getFile p (setFile p c fl) = some c := by
  induction fl with
  | nil => simp [getFile, setFile]
  | cons hd tl ih =>
    obtain ⟨q, d⟩ := hd
    by_cases hq : q = p
    · subst hq
      simp [getFile, setFile]
    · simp only [setFile, if_neg hq, getFile, ih]

theorem getFile_setFile_ne (p q : List String) (c : List Nat)
    (fl : List (List String × List Nat)) (hne : q ≠ p) :
    getFile p (setFile q c fl) = getFile p fl := by
  induction fl with
  | nil => simp [getFile, setFile, hne]
  | cons hd tl ih =>
    obtain ⟨r, d⟩ := hd
    by_cases hr : r = q
    · subst hr
      simp only [setFile, if_pos rfl, getFile, if_neg hne]
    · simp only [setFile, if_neg hr, getFile, ih]

theorem parent_concat (outDir : List String) (name : String) :
    parent (outDir ++ [name]) = outDir := by
  rw [parent, List.dropLast_concat]

theorem concat_ne_concat (outDir : List String) (a b : String) (h : a ≠ b) :
    outDir ++ [a] ≠ outDir ++ [b] := by
  intro he
  exact h (by simpa using List.append_cancel_left he)

theorem concat_ne_self (outDir : List String) (a : String) :
    outDir ++ [a] ≠ outDir := by
  intro he
  have := congrArg List.length he
  simp at this

theorem mkdirOp_ok_inv (p : List String) (fs fs' : FS)
    (h : mkdirOp p fs = Except.ok fs') :
    fs'.files = fs.files ∧ fs'.broken = fs.broken ∧ p ∈ fs'.dirs ∧
      (∀ q ∈ fs.dirs, q ∈ fs'.dirs) ∧ (p ∈ fs.dirs → fs' = fs) := by
  rw [mkdirOp] at h
  by_cases hb : p ∈ fs.broken
  · simp [hb] at h
  · rw [if_neg hb] at h
    by_cases hd : p ∈ fs.dirs
    · rw [if_pos hd] at h
      cases h
      exact ⟨rfl, rfl, hd, fun q hq => hq, fun _ => rfl⟩
    · rw [if_neg hd] at h
      by_cases hp : parent p ∈ fs.dirs
      · rw [if_pos hp] at h
        cases h
        exact ⟨rfl, rfl, List.mem_cons_self _ _,
          fun q hq => List.mem_cons_of_mem _ hq, fun hc => absurd hc hd⟩
      · simp [hp] at h

theorem mkdirOp_ok (p : List String) (fs : FS) (hb : p ∉ fs.broken)
    (hp : parent p ∈ fs.dirs ∨ p ∈ fs.dirs) :
    ∃ fs1, mkdirOp p fs = Except.ok fs1 ∧ fs1.files = fs.files ∧
      fs1.broken = fs.broken ∧ p ∈ fs1.dirs ∧ (∀ q ∈ fs.dirs, q ∈ fs1.dirs) ∧
      (p ∈ fs.dirs → fs1 = fs) ∧ (p ∉ fs.dirs → fs1.dirs = p :: fs.dirs) := by
  rw [mkdirOp, if_neg hb]
  by_cases hd : p ∈ fs.dirs
  · rw [if_pos hd]
    exact ⟨fs, rfl, rfl, rfl, hd, fun q hq => hq, fun _ => rfl, fun hc => absurd hd hc⟩
  · rw [if_neg hd, if_pos (hp.resolve_right hd)]
    exact ⟨{ fs with dirs := p :: fs.dirs }, rfl, rfl, rfl, List.mem_cons_self _ _,
      fun q hq => List.mem_cons_of_mem _ hq, fun hc => absurd hc hd, fun _ => rfl⟩

theorem writeFile_ok_inv (p : List String) (c : List Nat) (fs fs' : FS)
    (h : writeFile p c fs = Except.ok fs') :
    fs' = { fs with files := setFile p c fs.files } := by
  rw [writeFile] at h
  by_cases hb : p ∈ fs.broken
  · simp [hb] at h
  · rw [if_neg hb] at h
    by_cases hp : parent p ∈ fs.dirs
    · rw [if_pos hp] at h
      cases h
      rfl
    · simp [hp] at h

theorem writeFile_ok (p : List String) (c : List Nat) (fs : FS)
    (hb : p ∉ fs.broken) (hp : parent p ∈ fs.dirs) :
    writeFile p c fs = Except.ok { fs with files := setFile p c fs.files } := by
  rw [writeFile, if_neg hb, if_pos hp]

theorem writeFile_broken (p : List String) (c : List Nat) (fs : FS)
    (hb : p ∈ fs.broken) :
    writeFile p c fs = Except.error (FsErr.ioError p) := by
  rw [writeFile, if_pos hb]

/-- The file table after the first two writes of a run (`odoo.env` and
`db-creation.env`). -/
def provFiles2 (outDir : List String) (admin dbpw : List Nat)
    (fl : List (List String × List Nat)) : List (List String × List Nat) :=
  setFile (creationPath outDir) (creationLine dbpw)
    (setFile (odooPath outDir) (adminLine admin) fl)

/-- The file table after all three writes of a run. -/
def provFiles (outDir : List String) (admin dbpw : List Nat)
    (fl : List (List String × List Nat)) : List (List String × List Nat) :=
  setFile (accessPath outDir) (accessLine dbpw) (provFiles2 outDir admin dbpw fl)

theorem mkdirOp_error_inv (p : List String) (fs : FS) (e : FsErr)
    (h : mkdirOp p fs = Except.error e) :
    p ∈ fs.broken ∨ (p ∉ fs.dirs ∧ parent p ∉ fs.dirs) := by
  rw [mkdirOp] at h
  by_cases hb : p ∈ fs.broken
  · exact Or.inl hb
  · rw [if_neg hb] at h
    by_cases hd : p ∈ fs.dirs
    · simp [hd] at h
    · rw [if_neg hd] at h
      by_cases hp : parent p ∈ fs.dirs
      · simp [hp] at h
      · exact Or.inr ⟨hd, hp⟩

theorem writeFile_error_inv (p : List String) (c : List Nat) (fs : FS) (e : FsErr)
    (h : writeFile p c fs = Except.error e) :
    p ∈ fs.broken ∨ parent p ∉ fs.dirs := by
  rw [writeFile] at h
  by_cases hb : p ∈ fs.broken
  · exact Or.inl hb
  · rw [if_neg hb] at h
    by_cases hp : parent p ∈ fs.dirs
    · simp [hp] at h
    · exact Or.inr hp

/-- Construction of a successful run, given that the directory was made,
both generations return and no path involved is broken. -/
theorem provision_success (fuel : Nat) (s : Nat → Nat) (len : Nat)
    (outDir : List String) (fs fs1 : FS) (admin dbpw : List Nat) (s1 s2 : Nat → Nat)
    (hmk : mkdirOp outDir fs = Except.ok fs1)
    (hg1 : _generate_password fuel s len = some (admin, s1))
    (hg2 : _generate_password fuel s1 len = some (dbpw, s2))
    (hdir : outDir ∈ fs1.dirs)
    (hb1 : odooPath outDir ∉ fs1.broken)
    (hb2 : creationPath outDir ∉ fs1.broken)
    (hb3 : accessPath outDir ∉ fs1.broken) :
    generate_password fuel s len outDir fs =
      some (Except.ok (),
        { fs1 with files := provFiles outDir admin dbpw fs1.files },
        [logDone, logLen len]) := by
  have hp1 : parent (odooPath outDir) ∈ fs1.dirs := by
    rw [odooPath, parent_concat]; exact hdir
  have hp2 : parent (creationPath outDir) ∈ fs1.dirs := by
    rw [creationPath, parent_concat]; exact hdir
  have hp3 : parent (accessPath outDir) ∈ fs1.dirs := by
    rw [accessPath, parent_concat]; exact hdir
  have hw1 := writeFile_ok (odooPath outDir) (adminLine admin) fs1 hb1 hp1
  have hw2 := writeFile_ok (creationPath outDir) (creationLine dbpw) { fs1 with files := setFile (odooPath outDir) (adminLine admin) fs1.files } hb2 hp2
  have hw3 := writeFile_ok (accessPath outDir) (accessLine dbpw) { fs1 with files := setFile (creationPath outDir) (creationLine dbpw) (setFile (odooPath outDir) (adminLine admin) fs1.files) } hb3 hp3
  simp only [generate_password, hmk, hg1, hg2, hw1, hw2, hw3, provFiles, provFiles2]

/-- Construction of a run that fails on the very last write, the one of
`db-access.env`: the error surfaces as-is and the filesystem keeps the
two files already written. -/
theorem provision_fail_access (fuel : Nat) (s : Nat → Nat) (len : Nat)
    (outDir : List String) (fs fs1 : FS) (admin dbpw : List Nat) (s1 s2 : Nat → Nat)
    (hmk : mkdirOp outDir fs = Except.ok fs1)
    (hg1 : _generate_password fuel s len = some (admin, s1))
    (hg2 : _generate_password fuel s1 len = some (dbpw, s2))
    (hdir : outDir ∈ fs1.dirs)
    (hb1 : odooPath outDir ∉ fs1.broken)
    (hb2 : creationPath outDir ∉ fs1.broken)
    (hb3 : accessPath outDir ∈ fs1.broken) :
    generate_password fuel s len outDir fs =
      some (Except.error (FsErr.ioError (accessPath outDir)),
        { fs1 with files := provFiles2 outDir admin dbpw fs1.files },
        []) := by
  have hp1 : parent (odooPath outDir) ∈ fs1.dirs := by
    rw [odooPath, parent_concat]; exact hdir
  have hp2 : parent (creationPath outDir) ∈ fs1.dirs := by
    rw [creationPath, parent_concat]; exact hdir
  have hw1 := writeFile_ok (odooPath outDir) (adminLine admin) fs1 hb1 hp1
  have hw2 := writeFile_ok (creationPath outDir) (creationLine dbpw) { fs1 with files := setFile (odooPath outDir) (adminLine admin) fs1.files } hb2 hp2
  have hw3 := writeFile_broken (accessPath outDir) (accessLine dbpw) { fs1 with files := setFile (creationPath outDir) (creationLine dbpw) (setFile (odooPath outDir) (adminLine admin) fs1.files) } hb3
  simp only [generate_password, hmk, hg1, hg2, hw1, hw2, hw3]
  rfl

/-- Inversion of a successful provisioning run: the directory was made,
two passwords were generated by two successive calls on the stream, and
the final filesystem is the initial one with the three files written (in
order `odoo.env`, `db-creation.env`, `db-access.env`) and the directory
added; the logs are the two info lines. -/
theorem provision_ok_inv (fuel : Nat) (s : Nat → Nat) (len : Nat)
    (outDir : List String) (fs fs' : FS) (logs : List String)
    (h : generate_password fuel s len outDir fs = some (Except.ok (), fs', logs)) :
    ∃ fs1 admin s1 dbpw s2,
      mkdirOp outDir fs = Except.ok fs1 ∧
      _generate_password fuel s len = some (admin, s1) ∧
      _generate_password fuel s1 len = some (dbpw, s2) ∧
      fs'.dirs = fs1.dirs ∧ fs'.broken = fs.broken ∧
      fs'.files = provFiles outDir admin dbpw fs.files ∧
      logs = [logDone, logLen len] := by
  rw [generate_password] at h
  split at h
  next e hmk => simp at h
  next fs1 hmk =>
  split at h
  next hg1 => simp at h
  next admin s1 hg1 =>
  split at h
  next hg2 => simp at h
  next dbpw s2 hg2 =>
  split at h
  next e hw1 => simp at h
  next fs2 hw1 =>
  split at h
  next e hw2 => simp at h
  next fs3 hw2 =>
  split at h
  next e hw3 => simp at h
  next fs4 hw3 =>
  simp only [Option.some.injEq, Prod.mk.injEq] at h
  obtain ⟨-, rfl, rfl⟩ := h
  obtain ⟨hmf, hmb, -, -, -⟩ := mkdirOp_ok_inv _ _ _ hmk
  have e2 := writeFile_ok_inv _ _ _ _ hw1
  have e3 := writeFile_ok_inv _ _ _ _ hw2
  have e4 := writeFile_ok_inv _ _ _ _ hw3
  subst e2; subst e3; subst e4
  exact ⟨fs1, admin, s1, dbpw, s2, hmk, hg1, hg2, rfl, hmb,
    by rw [provFiles, provFiles2, hmf], rfl⟩

theorem odooPath_ne_creationPath (outDir : List String) :
    odooPath outDir ≠ creationPath outDir := by
  rw [odooPath, creationPath]
  exact concat_ne_concat _ _ _ (by decide)

theorem odooPath_ne_accessPath (outDir : List String) :
    odooPath outDir ≠ accessPath outDir := by
  rw [odooPath, accessPath]
  exact concat_ne_concat _ _ _ (by decide)

theorem creationPath_ne_accessPath (outDir : List String) :
    creationPath outDir ≠ accessPath outDir := by
  rw [creationPath, accessPath]
  exact concat_ne_concat _ _ _ (by decide)

theorem getFile_provFiles_odoo (outDir : List String) (admin dbpw : List Nat)
    (fl : List (List String × List Nat)) :
    getFile (odooPath outDir) (provFiles outDir admin dbpw fl) = some (adminLine admin) := by
  rw [provFiles, provFiles2,
    getFile_setFile_ne _ _ _ _ (Ne.symm (odooPath_ne_accessPath outDir)),
    getFile_setFile_ne _ _ _ _ (Ne.symm (odooPath_ne_creationPath outDir)),
    getFile_setFile_self]

theorem getFile_provFiles_creation (outDir : List String) (admin dbpw : List Nat)
    (fl : List (List String × List Nat)) :
    getFile (creationPath outDir) (provFiles outDir admin dbpw fl) =
      some (creationLine dbpw) := by
  rw [provFiles, provFiles2,
    getFile_setFile_ne _ _ _ _ (Ne.symm (creationPath_ne_accessPath outDir)),
    getFile_setFile_self]

theorem getFile_provFiles_access (outDir : List String) (admin dbpw : List Nat)
    (fl : List (List String × List Nat)) :
    getFile (accessPath outDir) (provFiles outDir admin dbpw fl) =
      some (accessLine dbpw) := by
  rw [provFiles, getFile_setFile_self]

theorem getFile_provFiles_other (outDir : List String) (admin dbpw : List Nat)
    (fl : List (List String × List Nat)) (p : List String)
    (h1 : p ≠ odooPath outDir) (h2 : p ≠ creationPath outDir)
    (h3 : p ≠ accessPath outDir) :
    getFile p (provFiles outDir admin dbpw fl) = getFile p fl := by
  rw [provFiles, provFiles2,
    getFile_setFile_ne _ _ _ _ (Ne.symm h3),
    getFile_setFile_ne _ _ _ _ (Ne.symm h2),
    getFile_setFile_ne _ _ _ _ (Ne.symm h1)]

theorem getFile_provFiles2_odoo (outDir : List String) (admin dbpw : List Nat)
    (fl : List (List String × List Nat)) :
    getFile (odooPath outDir) (provFiles2 outDir admin dbpw fl) = some (adminLine admin) := by
  rw [provFiles2,
    getFile_setFile_ne _ _ _ _ (Ne.symm (odooPath_ne_creationPath outDir)),
    getFile_setFile_self]

theorem getFile_provFiles2_creation (outDir : List String) (admin dbpw : List Nat)
    (fl : List (List String × List Nat)) :
    getFile (creationPath outDir) (provFiles2 outDir admin dbpw fl) =
      some (creationLine dbpw) := by
  rw [provFiles2, getFile_setFile_self]

theorem getFile_provFiles2_other (outDir : List String) (admin dbpw : List Nat)
    (fl : List (List String × List Nat)) (p : List String)
    (h1 : p ≠ odooPath outDir) (h2 : p ≠ creationPath outDir) :
    getFile p (provFiles2 outDir admin dbpw fl) = getFile p fl := by
  rw [provFiles2,
    getFile_setFile_ne _ _ _ _ (Ne.symm h2),
    getFile_setFile_ne _ _ _ _ (Ne.symm h1)]

theorem provFiles_nil (outDir : List String) (admin dbpw : List Nat) :
    provFiles outDir admin dbpw [] =
      [(odooPath outDir, adminLine admin), (creationPath outDir, creationLine dbpw),
        (accessPath outDir, accessLine dbpw)] := by
  simp [provFiles, provFiles2, setFile, odooPath_ne_creationPath outDir,
    odooPath_ne_accessPath outDir, creationPath_ne_accessPath outDir]

/-!
Helper lemmas about the generator.
-/

theorem choice_mem_alphabet (d : Nat) : choice d ∈ alphabet := by
  have hlen : alphabet.length = 94 := by decide
  have hlt : d % alphabet.length < alphabet.length := by
    rw [hlen]; exact Nat.mod_lt _ (by omega)
  rw [choice, alphabet.getD_eq_getElem 0 hlt]
  exact alphabet.getElem_mem hlt

theorem candidate_length (len : Nat) (s : Nat → Nat) : (candidate len s).length = len := by
  simp [candidate]

theorem candidate_mem (len : Nat) (s : Nat → Nat) :
    ∀ c ∈ candidate len s, c ∈ alphabet := by
  intro c hc
  rcases List.mem_map.mp hc with ⟨i, _, rfl⟩
  exact choice_mem_alphabet _

theorem mem_punctuation_iff (c : Nat) :
    c ∈ string_punctuation ↔
      (33 ≤ c ∧ c ≤ 47) ∨ (58 ≤ c ∧ c ≤ 64) ∨ (91 ≤ c ∧ c ≤ 96) ∨
      (123 ≤ c ∧ c ≤ 126) := by
  constructor
  · intro h
    simp only [string_punctuation, List.mem_append, List.mem_map, List.mem_range] at h
    rcases h with ((⟨i, hi, rfl⟩ | ⟨i, hi, rfl⟩) | ⟨i, hi, rfl⟩) | ⟨i, hi, rfl⟩ <;> omega
  · intro h
    simp only [string_punctuation, List.mem_append, List.mem_map, List.mem_range]
    rcases h with h | h | h | h
    · exact Or.inl (Or.inl (Or.inl ⟨c - 33, by omega, by omega⟩))
    · exact Or.inl (Or.inl (Or.inr ⟨c - 58, by omega, by omega⟩))
    · exact Or.inl (Or.inr ⟨c - 91, by omega, by omega⟩)
    · exact Or.inr ⟨c - 123, by omega, by omega⟩

theorem isPunct_iff (c : Nat) :
    isPunct c = true ↔
      (33 ≤ c ∧ c ≤ 47) ∨ (58 ≤ c ∧ c ≤ 64) ∨ (91 ≤ c ∧ c ≤ 96) ∨
      (123 ≤ c ∧ c ≤ 126) := by
  rw [isPunct, decide_eq_true_eq]
  exact mem_punctuation_iff c

theorem acceptable_iff (pw : List Nat) :
    acceptable pw = true ↔
      (∃ c ∈ pw, isLower c = true) ∧ (∃ c ∈ pw, isUpper c = true) ∧
      (∃ c ∈ pw, isDigit c = true) ∧ (∃ c ∈ pw, isPunct c = true) := by
  simp [acceptable, List.any_eq_true, and_assoc]

theorem acceptable_length_ge (pw : List Nat) (h : acceptable pw = true) :
    4 ≤ pw.length := by
  rcases (acceptable_iff pw).mp h with ⟨⟨a, ha, hla⟩, ⟨b, hb, hub⟩, ⟨c, hc, hdc⟩, ⟨d, hd, hpd⟩⟩
  simp only [isLower, isUpper, isDigit, Bool.and_eq_true, decide_eq_true_eq] at hla hub hdc
  rw [isPunct_iff] at hpd
  have hsub : [a, b, c, d] ⊆ pw := by
    intro x hx
    simp only [List.mem_cons, List.not_mem_nil, or_false] at hx
    rcases hx with rfl | rfl | rfl | rfl <;> assumption
  have hdist : a ≠ b ∧ a ≠ c ∧ a ≠ d ∧ b ≠ c ∧ b ≠ d ∧ c ≠ d := by
    rcases hpd with h | h | h | h <;> omega
  have hnd : List.Nodup [a, b, c, d] := by
    simp only [List.nodup_cons, List.mem_cons, List.not_mem_nil, or_false,
      List.nodup_nil, and_true, not_or]
    tauto
  have := (hnd.subperm hsub).length_le
  simpa using this

theorem gen_some_inv (fuel : Nat) (s : Nat → Nat) (len : Nat) (pw : List Nat)
    (s' : Nat → Nat) (h : _generate_password fuel s len = some (pw, s')) :
    pw.length = len ∧ (∀ c ∈ pw, c ∈ alphabet) ∧ acceptable pw = true := by
  induction fuel generalizing s with
  | zero => simp [_generate_password] at h
  | succ fuel ih =>
    rw [_generate_password] at h
    by_cases hacc : acceptable (candidate len s) = true
    · simp only [hacc, if_true, Option.some.injEq, Prod.mk.injEq] at h
      rcases h with ⟨rfl, rfl⟩
      exact ⟨candidate_length len s, candidate_mem len s, hacc⟩
    · simp only [hacc, if_false, Bool.false_eq_true] at h
      exact ih (shift len s) h

theorem shift_zero (s : Nat → Nat) : shift 0 s = s := by
  funext i; simp [shift]

theorem shift_shift (a b : Nat) (s : Nat → Nat) : shift a (shift b s) = shift (a + b) s := by
  funext i; simp [shift, Nat.add_assoc]

/-- The candidate drawn on iteration `k` of the loop: `length` wholly
fresh draws, after the `k * length` draws the first `k` iterations used. -/
def nthCandidate (len : Nat) (s : Nat → Nat) (k : Nat) : List Nat :=
  candidate len (shift (k * len) s)

theorem nthCandidate_shift (len : Nat) (s : Nat → Nat) (j : Nat) :
    nthCandidate len (shift len s) j = nthCandidate len s (j + 1) := by
  rw [nthCandidate, nthCandidate, shift_shift]
  have h : j * len + len = (j + 1) * len := by ring
  rw [h]

/-- When the loop returns, its result is the first acceptable candidate:
every earlier iteration's whole candidate was rejected, and the result is
the `k`-th candidate itself — no characters of a rejected candidate are
reused, the remaining stream starting after all `(k+1) * len` draws. -/
theorem gen_first_acceptable (fuel : Nat) (s : Nat → Nat) (len : Nat) (pw : List Nat)
    (s' : Nat → Nat) (h : _generate_password fuel s len = some (pw, s')) :
    ∃ k, k < fuel ∧ pw = nthCandidate len s k ∧ acceptable pw = true ∧
      (∀ j < k, acceptable (nthCandidate len s j) = false) ∧
      s' = shift ((k + 1) * len) s := by
  induction fuel generalizing s with
  | zero => simp [_generate_password] at h
  | succ fuel ih =>
    rw [_generate_password] at h
    by_cases hacc : acceptable (candidate len s) = true
    · simp only [hacc, if_true, Option.some.injEq, Prod.mk.injEq] at h
      rcases h with ⟨rfl, rfl⟩
      refine ⟨0, Nat.succ_pos _, ?_, hacc, fun j hj => absurd hj (Nat.not_lt_zero j), ?_⟩
      · rw [nthCandidate, Nat.zero_mul, shift_zero]
      · rw [Nat.one_mul]
    · simp only [hacc, if_false, Bool.false_eq_true] at h
      rcases ih (shift len s) h with ⟨k, hk, hpw, hok, hrej, hs'⟩
      refine ⟨k + 1, by omega, ?_, hok, ?_, ?_⟩
      · rw [hpw, nthCandidate_shift]
      · intro j hj
        cases j with
        | zero =>
          rw [nthCandidate, Nat.zero_mul, shift_zero]
          exact Bool.not_eq_true _ ▸ hacc
        | succ j =>
          have h2 := hrej j (by omega)
          rw [nthCandidate_shift] at h2
          exact h2
      · rw [hs', shift_shift]
        have h3 : (k + 1) * len + len = (k + 1 + 1) * len := by ring
        rw [h3]

theorem gen_none_of_short (fuel : Nat) (s : Nat → Nat) (len : Nat) (hlen : len < 4) :
    _generate_password fuel s len = none := by
  induction fuel generalizing s with
  | zero => rfl
  | succ fuel ih =>
    rw [_generate_password]
    have hacc : acceptable (candidate len s) = false := by
      cases hb : acceptable (candidate len s) with
      | false => rfl
      | true =>
        have h4 := acceptable_length_ge _ hb
        rw [candidate_length] at h4
        omega
    simp only [hacc, Bool.false_eq_true, if_false]
    exact ih (shift len s)

example :
    generate_password 1 testStream 4 [".docker"] fs0 =
      some (Except.ok (),
        { dirs := [[".docker"], []],
          files := [([".docker", "odoo.env"], adminLine [97, 65, 48, 33]),
                    ([".docker", "db-creation.env"], creationLine [97, 65, 48, 33]),
                    ([".docker", "db-access.env"], accessLine [97, 65, 48, 33])],
          broken := [] },
        [logDone, logLen 4]) := by
  rfl

/-!
Concrete scenarios used by witnesses.
-/

/-- A second concrete draw stream: every candidate of length 4 is
`bB1"` (codes 98, 66, 49, 34), accepted at once. -/
def testStream2 : Nat → Nat := fun i => [1, 27, 53, 63].getD (i % 4) 0

/-- The filesystem after a successful run on `fs0` with `testStream`. -/
def fsRes : FS :=
  { dirs := [[".docker"], []],
    files := [([".docker", "odoo.env"], adminLine [97, 65, 48, 33]),
      ([".docker", "db-creation.env"], creationLine [97, 65, 48, 33]),
      ([".docker", "db-access.env"], accessLine [97, 65, 48, 33])],
    broken := [] }

/-- The filesystem after a successful run on `fs0` with `testStream2`. -/
def fsRes2 : FS :=
  { dirs := [[".docker"], []],
    files := [([".docker", "odoo.env"], adminLine [98, 66, 49, 34]),
      ([".docker", "db-creation.env"], creationLine [98, 66, 49, 34]),
      ([".docker", "db-access.env"], accessLine [98, 66, 49, 34])],
    broken := [] }

/-- A filesystem on which exactly the `db-access.env` write raises. -/
def brokenFS : FS :=
  { dirs := [[]], files := [], broken := [[".docker", "db-access.env"]] }

/-- `brokenFS` after the output directory has been created. -/
def brokenFS1 : FS :=
  { dirs := [[".docker"], []], files := [], broken := [[".docker", "db-access.env"]] }

example : generate_password 1 testStream 4 [".docker"] fs0 =
    some (Except.ok (), fsRes, [logDone, logLen 4]) := rfl
example : generate_password 1 testStream2 4 [".docker"] fs0 =
    some (Except.ok (), fsRes2, [logDone, logLen 4]) := rfl
example : mkdirOp [".docker"] brokenFS = Except.ok brokenFS1 := rfl

/-!
The claims.
-/

/-- Claim C1: for every length >= 4, whenever `generate(length)` returns,
its result is a string of exactly `length` characters, each drawn from the
alphabet, containing at least one lowercase letter, one uppercase letter,
one digit and one punctuation character. -/
theorem generate_returns_valid_password (len : Nat) (_hlen : 4 ≤ len) (fuel : Nat)
    (s s' : Nat → Nat) (pw : List Nat)
    (h : _generate_password fuel s len = some (pw, s')) :
    pw.length = len ∧ (∀ c ∈ pw, c ∈ alphabet) ∧
      (∃ c ∈ pw, isLower c = true) ∧ (∃ c ∈ pw, isUpper c = true) ∧
      (∃ c ∈ pw, isDigit c = true) ∧ (∃ c ∈ pw, isPunct c = true) := by
  obtain ⟨h1, h2, h3⟩ := gen_some_inv fuel s len pw s' h
  obtain ⟨hl, hu, hd, hp⟩ := (acceptable_iff pw).mp h3
  exact ⟨h1, h2, hl, hu, hd, hp⟩

/-- Witness for C1 at the concrete input `length = 4` with `testStream`. -/
theorem generate_returns_valid_password_witness :
    ([97, 65, 48, 33] : List Nat).length = 4 ∧
      (∀ c ∈ ([97, 65, 48, 33] : List Nat), c ∈ alphabet) ∧
      (∃ c ∈ ([97, 65, 48, 33] : List Nat), isLower c = true) ∧
      (∃ c ∈ ([97, 65, 48, 33] : List Nat), isUpper c = true) ∧
      (∃ c ∈ ([97, 65, 48, 33] : List Nat), isDigit c = true) ∧
      (∃ c ∈ ([97, 65, 48, 33] : List Nat), isPunct c = true) :=
  generate_returns_valid_password 4 (by decide) 1 testStream (shift 4 testStream)
    [97, 65, 48, 33] rfl

/-- Claim C2 (the code lacks the guard the claim demands): for every
`length < 4` the generation loop never returns, for any fuel and any
draws — it can neither produce a valid candidate nor raise a validation
error, so the task hangs instead of failing fast. -/
theorem generate_short_never_returns (fuel : Nat) (s : Nat → Nat) (len : Nat)
    (hlen : len < 4) : _generate_password fuel s len = none :=
  gen_none_of_short fuel s len hlen

/-- Witness for C2 at the concrete input `length = 3`. -/
theorem generate_short_never_returns_witness :
    3 < 4 ∧ _generate_password 5 testStream 3 = none :=
  ⟨by decide, generate_short_never_returns 5 testStream 3 (by decide)⟩

/-- Claim C6: `generate` is whole-candidate rejection sampling: the result
of a run that returns is the first acceptable candidate; every earlier
iteration drew a whole `length`-character candidate (each character one
fresh draw from the alphabet) that was rejected as a whole, and the
remaining stream starts after all `(k+1) * length` draws used. -/
theorem generate_whole_candidate_rejection (fuel : Nat) (s : Nat → Nat) (len : Nat)
    (pw : List Nat) (s' : Nat → Nat)
    (h : _generate_password fuel s len = some (pw, s')) :
    ∃ k, k < fuel ∧ pw = nthCandidate len s k ∧ acceptable pw = true ∧
      (∀ j < k, acceptable (nthCandidate len s j) = false) ∧
      s' = shift ((k + 1) * len) s :=
  gen_first_acceptable fuel s len pw s' h

/-- Witness for C6 at the concrete input `length = 4` with `testStream`. -/
theorem generate_whole_candidate_rejection_witness :
    ∃ k, k < 1 ∧ ([97, 65, 48, 33] : List Nat) = nthCandidate 4 testStream k ∧
      acceptable [97, 65, 48, 33] = true ∧
      (∀ j < k, acceptable (nthCandidate 4 testStream j) = false) ∧
      shift 4 testStream = shift ((k + 1) * 4) testStream :=
  generate_whole_candidate_rejection 1 testStream 4 [97, 65, 48, 33]
    (shift 4 testStream) rfl

/-- Claim C10: with the random source an explicit input stream, generation
and provisioning are deterministic: equal draw streams give equal
passwords and byte-for-byte equal run results. -/
theorem provision_deterministic_in_stream (fuel len : Nat) (s1 s2 : Nat → Nat)
    (outDir : List String) (fs : FS) (h : s1 = s2) :
    _generate_password fuel s1 len = _generate_password fuel s2 len ∧
      generate_password fuel s1 len outDir fs = generate_password fuel s2 len outDir fs := by
  subst h
  exact ⟨rfl, rfl⟩

/-- Witness for C10 at the concrete stream `testStream`. -/
theorem provision_deterministic_in_stream_witness :
    _generate_password 2 testStream 4 = _generate_password 2 testStream 4 ∧
      generate_password 2 testStream 4 [".docker"] fs0 =
        generate_password 2 testStream 4 [".docker"] fs0 :=
  provision_deterministic_in_stream 2 4 testStream testStream [".docker"] fs0 rfl

/-- Claim C3: after any successful run, `db-creation.env` holds
`POSTGRES_PASSWORD=<p>` and `db-access.env` holds `PGPASSWORD=<p>` with the
same password bytes `p`, generated once by the second call to the
generator, while the admin password of `odoo.env` comes from a separate
first call. -/
theorem provision_reuses_db_password (fuel : Nat) (s : Nat → Nat) (len : Nat)
    (outDir : List String) (fs fs' : FS) (logs : List String)
    (h : generate_password fuel s len outDir fs = some (Except.ok (), fs', logs)) :
    ∃ admin dbpw s1 s2,
      _generate_password fuel s len = some (admin, s1) ∧
      _generate_password fuel s1 len = some (dbpw, s2) ∧
      getFile (odooPath outDir) fs'.files = some (adminLine admin) ∧
      getFile (creationPath outDir) fs'.files = some (creationLine dbpw) ∧
      getFile (accessPath outDir) fs'.files = some (accessLine dbpw) := by
  obtain ⟨fs1, admin, s1, dbpw, s2, hmk, hg1, hg2, hd, hb, hf, hl⟩ :=
    provision_ok_inv fuel s len outDir fs fs' logs h
  refine ⟨admin, dbpw, s1, s2, hg1, hg2, ?_, ?_, ?_⟩
  · rw [hf, getFile_provFiles_odoo]
  · rw [hf, getFile_provFiles_creation]
  · rw [hf, getFile_provFiles_access]

/-- Witness for C3 on the concrete successful run over `fs0`. -/
theorem provision_reuses_db_password_witness :
    ∃ admin dbpw s1 s2,
      _generate_password 1 testStream 4 = some (admin, s1) ∧
      _generate_password 1 s1 4 = some (dbpw, s2) ∧
      getFile (odooPath [".docker"]) fsRes.files = some (adminLine admin) ∧
      getFile (creationPath [".docker"]) fsRes.files = some (creationLine dbpw) ∧
      getFile (accessPath [".docker"]) fsRes.files = some (accessLine dbpw) :=
  provision_reuses_db_password 1 testStream 4 [".docker"] fs0 fsRes
    [logDone, logLen 4] rfl

/-- Claim C4: a successful run starting from an empty file table writes
exactly the three files `odoo.env`, `db-creation.env` and `db-access.env`
in the output directory; the full content of each is the single line
`KEY=value` terminated by a newline with the keys `ADMIN_PASSWORD`,
`POSTGRES_PASSWORD` and `PGPASSWORD`, the value bytes all drawn from the
alphabet (hence free of newlines), and nothing else. -/
theorem provision_writes_exactly_three_files (fuel : Nat) (s : Nat → Nat) (len : Nat)
    (outDir : List String) (fs fs' : FS) (logs : List String) (h0 : fs.files = [])
    (h : generate_password fuel s len outDir fs = some (Except.ok (), fs', logs)) :
    ∃ admin dbpw, (∀ c ∈ admin, c ∈ alphabet) ∧ (∀ c ∈ dbpw, c ∈ alphabet) ∧
      fs'.files = [(odooPath outDir, adminLine admin),
        (creationPath outDir, creationLine dbpw),
        (accessPath outDir, accessLine dbpw)] := by
  obtain ⟨fs1, admin, s1, dbpw, s2, hmk, hg1, hg2, hd, hb, hf, hl⟩ :=
    provision_ok_inv fuel s len outDir fs fs' logs h
  obtain ⟨-, hmem1, -⟩ := gen_some_inv fuel s len admin s1 hg1
  obtain ⟨-, hmem2, -⟩ := gen_some_inv fuel s1 len dbpw s2 hg2
  refine ⟨admin, dbpw, hmem1, hmem2, ?_⟩
  rw [hf, h0, provFiles_nil]

/-- Witness for C4 on the concrete successful run over `fs0`. -/
theorem provision_writes_exactly_three_files_witness :
    ∃ admin dbpw, (∀ c ∈ admin, c ∈ alphabet) ∧ (∀ c ∈ dbpw, c ∈ alphabet) ∧
      fsRes.files = [(odooPath [".docker"], adminLine admin),
        (creationPath [".docker"], creationLine dbpw),
        (accessPath [".docker"], accessLine dbpw)] :=
  provision_writes_exactly_three_files 1 testStream 4 [".docker"] fs0 fsRes
    [logDone, logLen 4] rfl rfl

/-- Counterexample to C5 as stated: with the parent of the output
directory missing, the run does not create the missing parent — it fails
with `FileNotFoundError` (the source calls `mkdir(exist_ok=True)` without
`parents=True`) and leaves the filesystem unchanged. -/
theorem provision_missing_parent_fails :
    generate_password 1 testStream 64 ["proj", ".docker"] fs0 =
      some (Except.error (FsErr.fileNotFound ["proj", ".docker"]), fs0, []) ∧
      fs0.dirs = [[]] ∧ ["proj", ".docker"] ∉ fs0.dirs ∧ ["proj"] ∉ fs0.dirs :=
  ⟨rfl, rfl, by decide, by decide⟩

/-- Claim C5 as amended: provision creates the output directory if it is
missing and its parent exists, and leaves it in place if it already
exists; it does not create missing parent directories.  Whenever the run
returns on an unbroken filesystem whose directory or parent exists, it
succeeds, the output directory exists afterwards, and an already existing
directory tree is left exactly as it was. -/
theorem provision_creates_dir_no_parents (fuel : Nat) (s : Nat → Nat) (len : Nat)
    (outDir : List String) (fs : FS) (hb : fs.broken = [])
    (hp : parent outDir ∈ fs.dirs ∨ outDir ∈ fs.dirs)
    (r : Except FsErr Unit) (fs' : FS) (logs : List String)
    (h : generate_password fuel s len outDir fs = some (r, fs', logs)) :
    r = Except.ok () ∧ outDir ∈ fs'.dirs ∧ (outDir ∈ fs.dirs → fs'.dirs = fs.dirs) := by
  rw [generate_password] at h
  split at h
  next e hmk =>
    rcases mkdirOp_error_inv _ _ _ hmk with hc | ⟨hd, hpp⟩
    · rw [hb] at hc; exact absurd hc (List.not_mem_nil _)
    · rcases hp with hp | hp
      · exact absurd hp hpp
      · exact absurd hp hd
  next fs1 hmk =>
  obtain ⟨hmf, hmb, hdir1, hmono, heq⟩ := mkdirOp_ok_inv _ _ _ hmk
  split at h
  next hg1 => exact absurd h (by simp)
  next admin s1 hg1 =>
  split at h
  next hg2 => exact absurd h (by simp)
  next dbpw s2 hg2 =>
  split at h
  next e hw1 =>
    rcases writeFile_error_inv _ _ _ _ hw1 with hc | hpp
    · rw [hmb, hb] at hc; exact absurd hc (List.not_mem_nil _)
    · rw [odooPath, parent_concat] at hpp; exact absurd hdir1 hpp
  next fs2 hw1 =>
  have e2 := writeFile_ok_inv _ _ _ _ hw1
  subst e2
  split at h
  next e hw2 =>
    rcases writeFile_error_inv _ _ _ _ hw2 with hc | hpp
    · exact absurd (show creationPath outDir ∈ fs1.broken from hc)
        (by rw [hmb, hb]; exact List.not_mem_nil _)
    · exact absurd hdir1 (by rw [creationPath, parent_concat] at hpp; exact hpp)
  next fs3 hw2 =>
  have e3 := writeFile_ok_inv _ _ _ _ hw2
  subst e3
  split at h
  next e hw3 =>
    rcases writeFile_error_inv _ _ _ _ hw3 with hc | hpp
    · exact absurd (show accessPath outDir ∈ fs1.broken from hc)
        (by rw [hmb, hb]; exact List.not_mem_nil _)
    · exact absurd hdir1 (by rw [accessPath, parent_concat] at hpp; exact hpp)
  next fs4 hw3 =>
  have e4 := writeFile_ok_inv _ _ _ _ hw3
  subst e4
  simp only [Option.some.injEq, Prod.mk.injEq] at h
  obtain ⟨hr, hfs, hlogs⟩ := h
  subst hfs
  refine ⟨hr.symm, hdir1, fun hin => ?_⟩
  exact show fs1.dirs = fs.dirs from congrArg FS.dirs (heq hin)

/-- Witness for C5 (amended) on the concrete run over `fs0`, whose root
directory is the parent of the output directory. -/
theorem provision_creates_dir_no_parents_witness :
    (Except.ok () : Except FsErr Unit) = Except.ok () ∧ [".docker"] ∈ fsRes.dirs ∧
      ([".docker"] ∈ fs0.dirs → fsRes.dirs = fs0.dirs) :=
  provision_creates_dir_no_parents 1 testStream 4 [".docker"] fs0 rfl
    (Or.inl (by decide)) (Except.ok ()) fsRes [logDone, logLen 4] rfl

/-- Claim C7: a successful run replaces the contents of each of the three
files wholesale — afterwards each holds exactly its fresh single line, no
old bytes and no backup — and every path other than the three files is
untouched (nothing else is created or modified). -/
theorem provision_overwrites_without_merge (fuel : Nat) (s : Nat → Nat) (len : Nat)
    (outDir : List String) (fs fs' : FS) (logs : List String)
    (h : generate_password fuel s len outDir fs = some (Except.ok (), fs', logs)) :
    (∃ admin dbpw,
      getFile (odooPath outDir) fs'.files = some (adminLine admin) ∧
      getFile (creationPath outDir) fs'.files = some (creationLine dbpw) ∧
      getFile (accessPath outDir) fs'.files = some (accessLine dbpw)) ∧
    (∀ p, p ≠ odooPath outDir → p ≠ creationPath outDir → p ≠ accessPath outDir →
      getFile p fs'.files = getFile p fs.files) := by
  obtain ⟨fs1, admin, s1, dbpw, s2, hmk, hg1, hg2, hd, hb, hf, hl⟩ :=
    provision_ok_inv fuel s len outDir fs fs' logs h
  refine ⟨⟨admin, dbpw, ?_, ?_, ?_⟩, ?_⟩
  · rw [hf, getFile_provFiles_odoo]
  · rw [hf, getFile_provFiles_creation]
  · rw [hf, getFile_provFiles_access]
  · intro p h1 h2 h3
    rw [hf, getFile_provFiles_other _ _ _ _ _ h1 h2 h3]

/-- Witness for C7 on the concrete successful run over `fs0`, checking the
frame at the unrelated path `["other.txt"]`. -/
theorem provision_overwrites_without_merge_witness :
    (∃ admin dbpw,
      getFile (odooPath [".docker"]) fsRes.files = some (adminLine admin) ∧
      getFile (creationPath [".docker"]) fsRes.files = some (creationLine dbpw) ∧
      getFile (accessPath [".docker"]) fsRes.files = some (accessLine dbpw)) ∧
    getFile ["other.txt"] fsRes.files = getFile ["other.txt"] fs0.files :=
  ⟨(provision_overwrites_without_merge 1 testStream 4 [".docker"] fs0 fsRes
      [logDone, logLen 4] rfl).1,
    (provision_overwrites_without_merge 1 testStream 4 [".docker"] fs0 fsRes
      [logDone, logLen 4] rfl).2 ["other.txt"] (by decide) (by decide) (by decide)⟩

/-- Claim C8: when the write of `db-access.env` raises, the error is
returned to the caller unchanged (no retry, no success log), the files
already written — `odoo.env` and `db-creation.env` — keep their newly
written contents, and `db-access.env` itself is left as it was before the
run (no rollback of the earlier writes, no cleanup). -/
theorem provision_error_propagates_no_rollback (fuel : Nat) (s : Nat → Nat)
    (len : Nat) (outDir : List String) (fs fs1 : FS) (admin dbpw : List Nat)
    (s1 s2 : Nat → Nat)
    (hmk : mkdirOp outDir fs = Except.ok fs1)
    (hg1 : _generate_password fuel s len = some (admin, s1))
    (hg2 : _generate_password fuel s1 len = some (dbpw, s2))
    (hdir : outDir ∈ fs1.dirs)
    (hb1 : odooPath outDir ∉ fs1.broken)
    (hb2 : creationPath outDir ∉ fs1.broken)
    (hb3 : accessPath outDir ∈ fs1.broken) :
    ∃ fs3, generate_password fuel s len outDir fs =
        some (Except.error (FsErr.ioError (accessPath outDir)), fs3, []) ∧
      getFile (odooPath outDir) fs3.files = some (adminLine admin) ∧
      getFile (creationPath outDir) fs3.files = some (creationLine dbpw) ∧
      getFile (accessPath outDir) fs3.files = getFile (accessPath outDir) fs.files := by
  obtain ⟨hmf, hmb, -, -, -⟩ := mkdirOp_ok_inv _ _ _ hmk
  refine ⟨{ fs1 with files := provFiles2 outDir admin dbpw fs1.files },
    provision_fail_access fuel s len outDir fs fs1 admin dbpw s1 s2 hmk hg1 hg2
      hdir hb1 hb2 hb3, ?_, ?_, ?_⟩
  · exact getFile_provFiles2_odoo outDir admin dbpw fs1.files
  · exact getFile_provFiles2_creation outDir admin dbpw fs1.files
  · rw [show ({ fs1 with files := provFiles2 outDir admin dbpw fs1.files } : FS).files = provFiles2 outDir admin dbpw fs1.files from rfl,
      getFile_provFiles2_other outDir admin dbpw fs1.files (accessPath outDir)
        (Ne.symm (odooPath_ne_accessPath outDir))
        (Ne.symm (creationPath_ne_accessPath outDir)), hmf]

/-- Witness for C8 on the concrete filesystem `brokenFS`, broken exactly
at `.docker/db-access.env`. -/
theorem provision_error_propagates_no_rollback_witness :
    ∃ fs3, generate_password 1 testStream 4 [".docker"] brokenFS =
        some (Except.error (FsErr.ioError (accessPath [".docker"])), fs3, []) ∧
      getFile (odooPath [".docker"]) fs3.files = some (adminLine [97, 65, 48, 33]) ∧
      getFile (creationPath [".docker"]) fs3.files = some (creationLine [97, 65, 48, 33]) ∧
      getFile (accessPath [".docker"]) fs3.files =
        getFile (accessPath [".docker"]) brokenFS.files :=
  provision_error_propagates_no_rollback 1 testStream 4 [".docker"] brokenFS brokenFS1
    [97, 65, 48, 33] [97, 65, 48, 33] (shift 4 testStream) (shift 4 (shift 4 testStream))
    rfl rfl rfl (by decide) (by decide) (by decide) (by decide)

/-- Claim C9: the logs of a successful run are exactly the completion line
and the line naming the chosen length; any two successful runs with the
same length produce identical logs, whatever passwords were drawn. -/
theorem provision_logs_length_only (fuelA fuelB : Nat) (sA sB : Nat → Nat) (len : Nat)
    (outA outB : List String) (fsA fsB fsA' fsB' : FS) (logsA logsB : List String)
    (hA : generate_password fuelA sA len outA fsA = some (Except.ok (), fsA', logsA))
    (hB : generate_password fuelB sB len outB fsB = some (Except.ok (), fsB', logsB)) :
    logsA = logsB ∧ logsA = [logDone, logLen len] := by
  obtain ⟨-, -, -, -, -, -, -, -, -, -, -, hlA⟩ :=
    provision_ok_inv fuelA sA len outA fsA fsA' logsA hA
  obtain ⟨-, -, -, -, -, -, -, -, -, -, -, hlB⟩ :=
    provision_ok_inv fuelB sB len outB fsB fsB' logsB hB
  exact ⟨hlA.trans hlB.symm, hlA⟩

/-- Witness for C9 on two concrete successful runs that draw different
passwords (`testStream` versus `testStream2`). -/
theorem provision_logs_length_only_witness :
    [logDone, logLen 4] = [logDone, logLen 4] ∧
      [logDone, logLen 4] = [logDone, logLen 4] :=
  provision_logs_length_only 1 1 testStream testStream2 4 [".docker"] [".docker"]
    fs0 fs0 fsRes fsRes2 [logDone, logLen 4] [logDone, logLen 4] rfl rfl
